import Mathlib

/-!
Verification of the Prompt Optimization Pipeline of the Claude-Prompt-extension
repository: payload assembly (`assemblePayload.js`), multi-provider dispatch with
error classification and response normalization (`aiProviders.js`), the
optimization orchestrator (`background.js` `handleOptimize`), token-count
estimation (`tokenCounter.js`) and the word-level diff (`diffView.js`).

JavaScript strings are embedded as Lean `String`s; `Array`s as `List`s; machine
integers do not occur (all counts are small natural numbers).  DOM, storage and
network effects are made explicit: the single `fetch` round trip each provider
performs is passed in as a `FetchOutcome` value, and whether the code reached the
network at all is recorded in the result.
-/

set_option maxRecDepth 100000

namespace ClaudeExt

/-! ### JavaScript string primitives -/

/-- The whitespace class of the JavaScript regexp `\s` (restricted to the ASCII
whitespace characters; the texts handled by the extension contain no exotic
Unicode spaces). -/
def jsIsWs (c : Char) : Bool :=
  c == ' ' || c == '\t' || c == '\n' || c == '\r' || c == '\x0b' || c == '\x0c'

/-- Both-ends whitespace trim on a character list, as in
`String.prototype.trim`. -/
def trimChars (l : List Char) : List Char :=
  ((l.dropWhile jsIsWs).reverse.dropWhile jsIsWs).reverse

/-- `text.trim()`. -/
def jsTrim (s : String) : String :=
  String.mk (trimChars s.data)

/-- `Array.prototype.join(sep)`. -/
def jsJoin (sep : String) : List String → String
  | [] => ""
  | [p] => p
  | p :: q :: ps => p ++ sep ++ jsJoin sep (q :: ps)

/-- Split a character list at every `'\n'`, keeping empty segments, as in
`text.split('\n')`. -/
def splitLines : List Char → List (List Char)
  | [] => [[]]
  | c :: cs =>
    match splitLines cs with
    | [] => [[]]
    | l :: ls => if c = '\n' then [] :: l :: ls else (c :: l) :: ls

/-- `text.split('\n')`. -/
def jsSplitNl (s : String) : List String :=
  (splitLines s.data).map String.mk

/-- Accumulate the maximal non-whitespace runs of a character list.  `acc` holds
the (reversed) run currently being read. -/
def wordsAux : List Char → List Char → List (List Char)
  | [], acc => if acc = [] then [] else [acc.reverse]
  | c :: cs, acc =>
    if jsIsWs c then
      if acc = [] then wordsAux cs [] else acc.reverse :: wordsAux cs []
    else
      wordsAux cs (c :: acc)

/-- The whitespace-separated words of a text with empties discarded: the common
value of `text.split(/\s+/).filter(w => w.length > 0)` (token counter) and
`text.split(/(\s+)/).filter(w => w.trim().length > 0)` (diff view). -/
def jsWords (s : String) : List String :=
  (wordsAux s.data []).map String.mk

/-- `text.toLowerCase()`. -/
def jsToLower (s : String) : String :=
  String.mk (s.data.map Char.toLower)

/-- Does `pat` occur as a contiguous run inside `s`?  Bool-level companion of
`List.IsInfix`, used to embed `String.prototype.includes`. -/
def hasInfix (pat : List Char) : List Char → Bool
  | [] => pat.isPrefixOf []
  | c :: rest => pat.isPrefixOf (c :: rest) || hasInfix pat rest

/-- `s.includes(pat)`. -/
def containsSub (s pat : String) : Bool :=
  hasInfix pat.data s.data

theorem hasInfix_iff (pat : List Char) (s : List Char) :
    hasInfix pat s = true ↔ pat <:+: s := by
  induction s with
  | nil =>
    simp [hasInfix, List.isPrefixOf_iff_prefix]
  | cons c rest ih =>
    simp only [hasInfix, Bool.or_eq_true, List.isPrefixOf_iff_prefix, ih]
    exact Iff.symm List.infix_cons_iff

theorem containsSub_iff (s pat : String) :
    containsSub s pat = true ↔ pat.data <:+: s.data :=
  hasInfix_iff pat.data s.data

/-- A member of a joined array is a substring of the join. -/
theorem infix_jsJoin (sep : String) :
    ∀ (parts : List String) (p : String), p ∈ parts →
      p.data <:+: (jsJoin sep parts).data
  | [], p, h => absurd h (List.not_mem_nil p)
  | [x], p, h => by
    rcases List.mem_singleton.mp h with rfl
    exact List.infix_refl _
  | x :: y :: ys, p, h => by
    rcases List.mem_cons.mp h with rfl | h'
    · show p.data <:+: (p ++ sep ++ jsJoin sep (y :: ys)).data
      simp only [String.data_append]
      exact ((List.prefix_append p.data _).trans (List.prefix_append _ _)).isInfix
    · have ih := infix_jsJoin sep (y :: ys) p h'
      show p.data <:+: (x ++ sep ++ jsJoin sep (y :: ys)).data
      simp only [String.data_append]
      exact ih.trans (List.suffix_append _ _).isInfix

/-! ### Token Estimator (`tokenCounter.js`, `estimateTokens`) -/

/-- The punctuation/symbol character class of `estimateTokens`:
the regexp `[{}()\[\]<>:;,."'`~!@#$%^&*+=|\\/?-]`. -/
def specialCharClass : List Char :=
  "\x7b\x7d()[]<>:;,.\x22\x27\x60~!@#$%^&*+=|\\/?-".data

def isSpecialChar (c : Char) : Bool :=
  specialCharClass.contains c

/-- Length-bucket units assigned to one word by `estimateTokens`
(for word lengths above twelve, `Math.ceil(len / 4)`). -/
def bucketUnits (len : Nat) : Nat :=
  if len ≤ 4 then 1 else if len ≤ 8 then 2 else if len ≤ 12 then 3 else (len + 3) / 4

/-- `estimateTokens(text)` from `tokenCounter.js`: 0 on the empty string, else
word-bucket units summed in a loop, plus `ceil(specials / 2)` for the special
characters, plus one per newline, floored at 1. -/
def estimateTokens (text : String) : Nat :=
  if text = "" then 0
  else
    let words := jsWords text
    let wordTokens := words.foldl (fun acc w =>
      acc + (if w.length ≤ 4 then 1 else if w.length ≤ 8 then 2
             else if w.length ≤ 12 then 3 else (w.length + 3) / 4)) 0
    let specials := text.data.countP isSpecialChar
    let newlines := text.data.countP (fun c => c == '\n')
    max 1 (wordTokens + (specials + 1) / 2 + newlines)

theorem foldl_add_eq_sum (f : String → Nat) :
    ∀ (l : List String) (n : Nat),
      l.foldl (fun acc w => acc + f w) n = n + (l.map f).sum
  | [], n => by simp
  | w :: ws, n => by
    simp only [List.foldl_cons, List.map_cons, List.sum_cons]
    rw [foldl_add_eq_sum f ws (n + f w)]
    omega

/-! ### Diff Engine (`diffView.js`, `createDiff`) -/

structure DiffStats where
  added : Nat
  removed : Nat
  unchanged : Nat
  originalWords : Nat
  optimizedWords : Nat
deriving Repr, DecidableEq

/-- `tokenize` from `diffView.js`: split on whitespace, discard empty tokens. -/
def tokenize (text : String) : List String :=
  jsWords text

/-- The `stats` block of `createDiff(original, optimized)`.  The JS function
increments `removed`/`unchanged` while rendering the original word sequence and
`added` while rendering the optimized sequence; the HTML rendering itself is
DOM-bound and carries no further information about the counts.  The JS `Set`s of
lowercased words are embedded as the lowercased word lists (membership agrees). -/
def createDiffStats (original optimized : String) : DiffStats :=
  let originalWords := tokenize original
  let optimizedWords := tokenize optimized
  let originalSet := originalWords.map jsToLower
  let optimizedSet := optimizedWords.map jsToLower
  { removed := originalWords.countP (fun w => !(optimizedSet.contains (jsToLower w)))
    unchanged := originalWords.countP (fun w => optimizedSet.contains (jsToLower w))
    added := optimizedWords.countP (fun w => !(originalSet.contains (jsToLower w)))
    originalWords := originalWords.length
    optimizedWords := optimizedWords.length }

theorem countP_not_add_countP (p : String → Bool) :
    ∀ l : List String, l.countP (fun a => !p a) + l.countP p = l.length
  | [] => rfl
  | a :: l => by
    simp only [List.countP_cons, List.length_cons]
    have := countP_not_add_countP p l
    cases h : p a <;> simp [h] <;> omega

/-! ### Payload Assembler (`assemblePayload.js`) and the embedded-file record
built in `popup.js` `handleOptimize` -/

/-- The preference fields `assemblePayload` reads. -/
structure Prefs where
  noReadme : Bool := true
  fullCode : Bool := true
  preferVanilla : Bool := true
  shortSummary : Bool := true
  alwaysIncludeText : String := ""
  savedSnippets : List String := []

/-- An entry of `embeddedFiles` as prepared in `popup.js`. -/
structure EmbeddedFile where
  name : String
  ext : String
  text : String
  truncated : Bool

/-- `popup.js`: `{name, ext, text: f.content, truncated: f.content.split('\n').length > 50}`. -/
def mkEmbeddedFile (name ext content : String) : EmbeddedFile :=
  { name := name, ext := ext, text := content
    truncated := decide (50 < (jsSplitNl content).length) }

def dirNoReadme : String :=
  "- Do NOT ask for a README and do NOT generate one."

def dirFullCode : String :=
  "- Require full, runnable code with a clear file tree and code blocks for each file."

def dirPreferVanilla : String :=
  "- Prefer Chrome MV3 + vanilla HTML/CSS/JS when applicable; otherwise choose mainstream stacks."

def dirShortSummary : String :=
  "- Keep explanations minimal; add a few-line summary at the end only."

/-- The system-instruction template literal of `assemblePayload`, with the four
conditionally interpolated directive lines. -/
def systemInstruction (noReadme fullCode preferVanilla shortSummary : Bool) : String :=
  "ROLE: You optimize prompts for downstream coding LLMs (Claude, etc.).\nGOAL: Rewrite the user\x27s raw prompt into a concise, token-efficient, model-agnostic instruction that reliably yields end-to-end code and a tiny closing summary.\n\nHARD RULES:\n"
    ++ (if noReadme then dirNoReadme else "") ++ "\n"
    ++ (if fullCode then dirFullCode else "") ++ "\n"
    ++ (if preferVanilla then dirPreferVanilla else "") ++ "\n"
    ++ (if shortSummary then dirShortSummary else "") ++ "\n"
    ++ "- If files are attached below, refer to them by filename and include essential snippets where needed.\n- Avoid generic filler; reduce tokens.\n\nOUTPUT: A single Claude-ready prompt that the user can paste as-is."

/-- The strings `assemblePayload` pushes to `parts` for one embedded file. -/
def embeddedFileParts (file : EmbeddedFile) : List String :=
  ["\n=== FILE: " ++ file.name, "```" ++ file.ext]
    ++ (if file.truncated then
          let lines := jsSplitNl file.text
          [jsJoin "\n" (lines.take 50),
           "\n... [TRUNCATED - " ++ toString lines.length ++ " total lines]"]
        else [file.text])
    ++ ["```"]

/-- The `parts` array `assemblePayload` accumulates before the final join. -/
def assembleParts (rawPrompt : String) (prefs : Prefs)
    (scrapedFilenames : List String) (embeddedFiles : List EmbeddedFile) : List String :=
  [systemInstruction prefs.noReadme prefs.fullCode prefs.preferVanilla prefs.shortSummary,
   "\n\nRaw Prompt:\n" ++ rawPrompt]
  ++ (if prefs.alwaysIncludeText = "" then []
      else ["\n\nAlways Include Instructions:\n" ++ prefs.alwaysIncludeText])
  ++ (if prefs.savedSnippets.length > 0 then
        let validSnippets := prefs.savedSnippets.filter (fun s => !(jsTrim s = ""))
        if validSnippets.length > 0 then
          ["\n\nSaved Snippets to Consider:\n" ++ jsJoin "\n---\n" validSnippets]
        else []
      else [])
  ++ (if scrapedFilenames.length > 0 then
        ["\n\nDetected Claude Files (names only):\n" ++ jsJoin ", " scrapedFilenames]
      else [])
  ++ (if embeddedFiles.length > 0 then
        "\n\nEmbedded Files:" :: (embeddedFiles.map embeddedFileParts).flatten
      else [])

/-- `assemblePayload(rawPrompt, prefs, scrapedFilenames, embeddedFiles)`:
`parts.join('\n')`. -/
def assemblePayload (rawPrompt : String) (prefs : Prefs)
    (scrapedFilenames : List String) (embeddedFiles : List EmbeddedFile) : String :=
  jsJoin "\n" (assembleParts rawPrompt prefs scrapedFilenames embeddedFiles)

/-! ### Response normalization (`aiProviders.js`, `cleanResponse`) -/

/-- A prefix pattern is a character-class sequence: position `i` of the subject
must match one of the characters in entry `i`, case-insensitively (regexp flag
`i`).  Every pattern in the source has the shape `/^<literal>:?\s*/i`; the
optional colon and trailing whitespace are handled by `stripPattern`. -/
def litChars (s : String) : List (List Char) :=
  s.data.map (fun c => [c])

/-- `/^Here['']s the optimized prompt:?\s*/i` — the bracket class holds the
ASCII apostrophe twice. -/
def pat1 : List (List Char) :=
  litChars "Here" ++ [['\x27', '\x27']] ++ litChars "s the optimized prompt"

/-- `/^Optimized prompt:?\s*/i` -/
def pat2 : List (List Char) := litChars "Optimized prompt"

/-- `/^Here is the optimized version:?\s*/i` -/
def pat3 : List (List Char) := litChars "Here is the optimized version"

/-- `/^The optimized prompt:?\s*/i` -/
def pat4 : List (List Char) := litChars "The optimized prompt"

/-- `/^Here is your optimized prompt:?\s*/i` -/
def pat5 : List (List Char) := litChars "Here is your optimized prompt"

/-- The `prefixes` array of `cleanResponse`, in source order. -/
def responsePrefixPatterns : List (List (List Char)) :=
  [pat1, pat2, pat3, pat4, pat5]

def matchClass (cls : List Char) (c : Char) : Bool :=
  cls.any (fun a => a.toLower == c.toLower)

/-- Match the literal part of a pattern at the start of the subject, returning
the unmatched remainder on success. -/
def matchLiteral : List (List Char) → List Char → Option (List Char)
  | [], s => some s
  | _ :: _, [] => none
  | cls :: rest, c :: cs => if matchClass cls c then matchLiteral rest cs else none

/-- `result.replace(/^<literal>:?\s*/i, '')`: when the literal matches at the
start, also consume an optional colon and any following whitespace; otherwise
leave the subject unchanged. -/
def stripPattern (lit : List (List Char)) (s : List Char) : List Char :=
  match matchLiteral lit s with
  | none => s
  | some rest =>
    let rest1 := match rest with
      | ':' :: t => t
      | _ => rest
    rest1.dropWhile jsIsWs

/-- `cleanResponse(text)`: trim, then apply each prefix pattern in order (each
`replace` call fires at most once, but later patterns act on the output of
earlier ones), then trim again. -/
def cleanResponse (text : String) : String :=
  String.mk (trimChars
    (responsePrefixPatterns.foldl (fun r p => stripPattern p r) (trimChars text.data)))

/-- Modelled from the spec: "a fixed set of case-insensitive prefix patterns,
tried in order, first match wins, applied once" — strip only the first matching
pattern of the trimmed text.  Stated for comparison with `cleanResponse`, which
the source defines by sequential application instead. -/
def cleanResponseSpecFirstMatch (text : String) : String :=
  let t := trimChars text.data
  let t2 := match responsePrefixPatterns.find? (fun p => (matchLiteral p t).isSome) with
    | some p => stripPattern p t
    | none => t
  String.mk (trimChars t2)

/-! ### Provider Dispatcher (`aiProviders.js`) -/

/-- The error taxonomy of the specification.  The JS code signals failures by
throwing `Error` objects carrying only a message; each `throw` site is tagged
here with the kind its message corresponds to, so a `ProviderError` records
both the classification and the literal message thrown by the source. -/
inductive ErrorKind where
  | MissingCredential
  | BadRequest
  | InvalidCredential
  | RateLimited
  | QuotaExceeded
  | ProviderUnavailable
  | NetworkError
  | ModelNotFound
  | ContentBlocked
  | EmptyResponse
  | UnknownError
deriving Repr, DecidableEq

structure ProviderError where
  kind : ErrorKind
  message : String
deriving Repr, DecidableEq

inductive GenResult where
  | ok (text : String)
  | err (e : ProviderError)
deriving Repr, DecidableEq

/-- The one `fetch` round trip a provider call performs: either the promise
rejects with no response at all (browser message `Failed to fetch`), or a
response arrives. -/
structure HttpResponse where
  status : Nat
  /-- `error.error?.message` parsed from the JSON error body (`""` when the
  body is absent or has no such field). -/
  errorMessage : String := ""
  /-- Gemini `data.promptFeedback?.blockReason` (`""` when absent). -/
  blockReason : String := ""
  /-- The provider's extracted text field (`none` when the field is absent;
  for Gemini this stands for the joined `candidates[0].content.parts` texts). -/
  extractedText : Option String := none
deriving Repr, DecidableEq

inductive FetchOutcome where
  | failure
  | response (r : HttpResponse)
deriving Repr, DecidableEq

/-- What one provider call did: whether it reached the network, which URL it
requested, and the value returned or error thrown. -/
structure GenOutcome where
  networkCalled : Bool
  requestUrl : Option String
  result : GenResult
deriving Repr, DecidableEq

/-- `Response.ok`: status in the inclusive-exclusive range 200–299. -/
def responseOk (status : Nat) : Bool :=
  200 ≤ status && status < 300

/-- JavaScript falsiness of an optional string: absent (`undefined`/`null`) or
empty. -/
def falsy : Option String → Bool
  | none => true
  | some s => s == ""

def geminiEndpoint : String :=
  "https://generativelanguage.googleapis.com/v1beta/models/gemini-1.5-flash:generateContent"

def openaiEndpoint : String :=
  "https://api.openai.com/v1/chat/completions"

/-- `handleGeminiError(response)`: each branch throws; the pair records the
kind and the literal message. -/
def handleGeminiError (status : Nat) (bodyMessage : String) : ProviderError :=
  if status = 400 then
    ⟨.BadRequest, "Invalid request. Check your prompt."⟩
  else if status = 401 ∨ status = 403 then
    ⟨.InvalidCredential, "Invalid Gemini API key"⟩
  else if status = 429 then
    ⟨.RateLimited, "Rate limit: 15 req/min for free tier. Wait and retry."⟩
  else if 500 ≤ status then
    ⟨.ProviderUnavailable, "Gemini API is temporarily unavailable"⟩
  else if bodyMessage = "" then
    ⟨.UnknownError, "API error: " ++ toString status⟩
  else
    ⟨.UnknownError, bodyMessage⟩

/-- `generateWithGemini(prompt, apiKey)`.  The prompt only flows into the
request body and does not influence control flow, so it is not a parameter of
the model. -/
def generateWithGemini (apiKey : Option String) (net : FetchOutcome) : GenOutcome :=
  if falsy apiKey then
    ⟨false, none, .err ⟨.MissingCredential, "Gemini API key is required"⟩⟩
  else
    let url := geminiEndpoint ++ "?key=" ++ apiKey.getD ""
    match net with
    | .failure => ⟨true, some url, .err ⟨.NetworkError, "Failed to fetch"⟩⟩
    | .response r =>
      ⟨true, some url,
        if !responseOk r.status then
          .err (handleGeminiError r.status r.errorMessage)
        else if r.blockReason = "" then
          match r.extractedText with
          | none => .err ⟨.EmptyResponse, "No response from Gemini API"⟩
          | some t => .ok (cleanResponse t)
        else
          .err ⟨.ContentBlocked, "Content blocked: " ++ r.blockReason⟩⟩

/-- The error branches of `generateWithOpenAI` for a non-ok response. -/
def openaiError (status : Nat) (bodyMessage : String) : ProviderError :=
  if status = 401 then
    ⟨.InvalidCredential, "Invalid OpenAI API key"⟩
  else if status = 429 then
    ⟨.RateLimited, "OpenAI rate limit exceeded"⟩
  else if status = 402 then
    ⟨.QuotaExceeded, "OpenAI quota exceeded - add billing"⟩
  else if bodyMessage = "" then
    ⟨.UnknownError, "OpenAI error: " ++ toString status⟩
  else
    ⟨.UnknownError, bodyMessage⟩

/-- `generateWithOpenAI(prompt, apiKey)`. -/
def generateWithOpenAI (apiKey : Option String) (net : FetchOutcome) : GenOutcome :=
  if falsy apiKey then
    ⟨false, none, .err ⟨.MissingCredential, "OpenAI API key is required"⟩⟩
  else
    match net with
    | .failure => ⟨true, some openaiEndpoint, .err ⟨.NetworkError, "Failed to fetch"⟩⟩
    | .response r =>
      ⟨true, some openaiEndpoint,
        if !responseOk r.status then
          .err (openaiError r.status r.errorMessage)
        else
          let text := r.extractedText.getD ""
          if text = "" then .err ⟨.EmptyResponse, "No response from OpenAI"⟩
          else .ok (cleanResponse text)⟩

/-- `baseUrl || 'http://localhost:11434'`. -/
def resolveOllamaBase (baseUrl : Option String) : String :=
  if falsy baseUrl then "http://localhost:11434" else baseUrl.getD ""

/-- `generateWithOllama(prompt, baseUrl)`.  The surrounding `try`/`catch`
rewraps only rejections whose message contains `Failed to fetch`, i.e. the
network-level failure; the thrown HTTP-status errors pass through it
unchanged. -/
def generateWithOllama (baseUrl : Option String) (net : FetchOutcome) : GenOutcome :=
  let url := resolveOllamaBase baseUrl ++ "/api/generate"
  match net with
  | .failure =>
    ⟨true, some url,
      .err ⟨.NetworkError,
        "Cannot connect to Ollama. Make sure it is running on " ++ resolveOllamaBase baseUrl⟩⟩
  | .response r =>
    ⟨true, some url,
      if !responseOk r.status then
        if r.status = 404 then
          .err ⟨.ModelNotFound, "Model \x22llama3.2\x22 not found. Run: ollama pull llama3.2"⟩
        else
          .err ⟨.UnknownError, "Ollama error: " ++ toString r.status⟩
      else
        .ok (cleanResponse (r.extractedText.getD ""))⟩

structure ProviderConfig where
  provider : String
  apiKey : Option String := none
  openaiKey : Option String := none
  ollamaUrl : Option String := none

/-- `generateWithProvider(prompt, config)`: the provider switch. -/
def generateWithProvider (config : ProviderConfig) (net : FetchOutcome) : GenOutcome :=
  if config.provider = "gemini" then generateWithGemini config.apiKey net
  else if config.provider = "openai" then generateWithOpenAI config.openaiKey net
  else if config.provider = "ollama" then generateWithOllama config.ollamaUrl net
  else ⟨false, none, .err ⟨.UnknownError, "Unknown provider: " ++ config.provider⟩⟩

/-! ### Optimization Orchestrator (`v2/background.js`, `handleOptimize`) -/

structure OptimizeResponse where
  ok : Bool
  prompt : Option String := none
  error : Option String := none
deriving Repr, DecidableEq

/-- The catch-block rewriting in `handleOptimize`: messages containing `403`,
`429` or `quota` (tested in that order) are replaced by canned texts. -/
def rewriteErrorMessage (msg : String) : String :=
  if containsSub msg "403" then
    "API key invalid or restricted. Check Options > API key"
  else if containsSub msg "429" then
    "Rate limit exceeded. Please wait a moment and try again."
  else if containsSub msg "quota" then
    "API quota exceeded. Check your Google AI Studio dashboard."
  else msg

/-- `handleOptimize(payload)` from `v2/background.js`, with the stored Gemini
key, the stored provider choice, and the dispatcher's outcome passed
explicitly.  The payload string itself does not influence control flow. -/
def handleOptimize (geminiKey : Option String) (provider : String)
    (dispatchResult : GenResult) : OptimizeResponse :=
  if falsy geminiKey && (provider == "gemini") then
    { ok := false, error := some "API key not configured. Please set it in Options." }
  else
    match dispatchResult with
    | .ok t => { ok := true, prompt := some t }
    | .err e => { ok := false, error := some (rewriteErrorMessage e.message) }

/-! ### Further join lemmas -/

theorem prefix_jsJoin (sep : String) :
    ∀ (r p : List String), r <+: p →
      (jsJoin sep r).data <+: (jsJoin sep p).data
  | [], _, _ => show ([] : List Char) <+: _ from List.nil_prefix
  | [x], p, h => by
    obtain ⟨t, ht⟩ := h
    subst ht
    cases t with
    | nil => exact List.prefix_refl _
    | cons q qs =>
      show x.data <+: (x ++ sep ++ jsJoin sep (q :: qs)).data
      simp only [String.data_append]
      exact (List.prefix_append _ _).trans (List.prefix_append _ _)
  | x :: y :: ys, p, h => by
    obtain ⟨t, ht⟩ := h
    subst ht
    have ih := prefix_jsJoin sep (y :: ys) (y :: ys ++ t) ⟨t, rfl⟩
    show (x ++ sep ++ jsJoin sep (y :: ys)).data <+: (x ++ sep ++ jsJoin sep (y :: ys ++ t)).data
    simp only [String.data_append, List.append_assoc]
    exact (List.prefix_append_right_inj _).mpr ((List.prefix_append_right_inj _).mpr ih)

/-- A contiguous nonempty run of array entries appears, joined with the same
separator, as a substring of the array's join. -/
theorem infix_run_jsJoin (sep : String) :
    ∀ (r p : List String), r ≠ [] → r <:+: p →
      (jsJoin sep r).data <:+: (jsJoin sep p).data := by
  intro r p
  induction p with
  | nil =>
    intro hne h
    exact absurd (List.infix_nil.mp h) hne
  | cons x ps ih =>
    intro hne h
    rcases List.infix_cons_iff.mp h with hpre | htail
    · exact (prefix_jsJoin sep r (x :: ps) hpre).isInfix
    · have hps : ps ≠ [] := by
        rintro rfl
        exact hne (List.infix_nil.mp htail)
      have := ih hne htail
      cases ps with
      | nil => exact absurd rfl hps
      | cons q qs =>
        show (jsJoin sep r).data <:+: (x ++ sep ++ jsJoin sep (q :: qs)).data
        simp only [String.data_append]
        exact this.trans (List.suffix_append _ _).isInfix

/-! ### Claim theorems: token estimator and diff engine -/

/-- C8: `estimateTokens` returns 0 iff the input is empty, at least 1 on any
non-empty string, and on non-empty input equals the sum of per-word bucket
units plus `ceil(specials / 2)` plus one per newline, floored at 1. -/
theorem estimateTokens_contract (s : String) :
    (estimateTokens s = 0 ↔ s = "") ∧
    (s ≠ "" →
      1 ≤ estimateTokens s ∧
      estimateTokens s =
        max 1 (((jsWords s).map (fun w => bucketUnits w.length)).sum
          + (s.data.countP isSpecialChar + 1) / 2
          + s.data.countP (fun c => c == '\n'))) := by
  have hform : s ≠ "" →
      estimateTokens s =
        max 1 (((jsWords s).map (fun w => bucketUnits w.length)).sum
          + (s.data.countP isSpecialChar + 1) / 2
          + s.data.countP (fun c => c == '\n')) := by
    intro h
    show (if s = "" then 0 else _) = _
    rw [if_neg h]
    show max 1 ((jsWords s).foldl (fun acc w => acc + bucketUnits w.length) 0 + _ + _) = _
    rw [foldl_add_eq_sum, Nat.zero_add]
  constructor
  · constructor
    · intro h0
      by_contra hne
      have := hform hne
      omega
    · intro h
      simp [estimateTokens, h]
  · intro h
    refine ⟨?_, hform h⟩
    have := hform h
    omega

/-- C8 witness: the contract evaluated on the concrete input `"ab cd\n!?"`. -/
theorem estimateTokens_contract_witness :
    (estimateTokens "ab cd\n!?" = 0 ↔ ("ab cd\n!?" : String) = "") ∧
    (("ab cd\n!?" : String) ≠ "" →
      1 ≤ estimateTokens "ab cd\n!?" ∧
      estimateTokens "ab cd\n!?" =
        max 1 (((jsWords "ab cd\n!?").map (fun w => bucketUnits w.length)).sum
          + (("ab cd\n!?" : String).data.countP isSpecialChar + 1) / 2
          + ("ab cd\n!?" : String).data.countP (fun c => c == '\n'))) :=
  estimateTokens_contract "ab cd\n!?"

/-- C9: the word-diff `added` count on `(a, b)` equals the `removed` count on
`(b, a)`: both count the tokens of `b` whose lowercase form is missing from the
lowercased token set of `a`. -/
theorem createDiff_added_removed_symm (a b : String) :
    (createDiffStats a b).added = (createDiffStats b a).removed :=
  rfl

/-- C10: every original-side token is counted exactly once, as removed or as
unchanged: `removed + unchanged = originalWords`. -/
theorem createDiff_partition (a b : String) :
    (createDiffStats a b).removed + (createDiffStats a b).unchanged
      = (createDiffStats a b).originalWords :=
  countP_not_add_countP _ (tokenize a)

/-! ### Claim theorems: payload assembler -/

theorem containsSub_jsJoin_of_mem (sep pat : String) {part : String} {parts : List String}
    (hmem : part ∈ parts) (hinf : pat.data <:+: part.data) :
    containsSub (jsJoin sep parts) pat = true :=
  (containsSub_iff _ _).mpr (hinf.trans (infix_jsJoin sep parts part hmem))

theorem infix_split (pre whole pat : String) (h : whole.data = pre.data ++ pat.data) :
    pat.data <:+: whole.data := by
  rw [h]
  exact (List.suffix_append _ _).isInfix

/-- C7: the assembled payload's preamble contains each directive line exactly
when its flag is set, and the payload carries the raw input verbatim under the
`Raw Prompt` section header. -/
theorem assembler_directives_and_raw (nr fc pv ss : Bool) (raw : String) (prefs : Prefs)
    (names : List String) (files : List EmbeddedFile) :
    containsSub (systemInstruction nr fc pv ss) dirNoReadme = nr ∧
    containsSub (systemInstruction nr fc pv ss) dirFullCode = fc ∧
    containsSub (systemInstruction nr fc pv ss) dirPreferVanilla = pv ∧
    containsSub (systemInstruction nr fc pv ss) dirShortSummary = ss ∧
    containsSub (assemblePayload raw prefs names files) ("Raw Prompt:\n" ++ raw) = true := by
  have hdir : containsSub (systemInstruction nr fc pv ss) dirNoReadme = nr ∧
      containsSub (systemInstruction nr fc pv ss) dirFullCode = fc ∧
      containsSub (systemInstruction nr fc pv ss) dirPreferVanilla = pv ∧
      containsSub (systemInstruction nr fc pv ss) dirShortSummary = ss := by
    cases nr <;> cases fc <;> cases pv <;> cases ss <;> decide
  refine ⟨hdir.1, hdir.2.1, hdir.2.2.1, hdir.2.2.2, ?_⟩
  have hmem : ("\n\nRaw Prompt:\n" ++ raw) ∈ assembleParts raw prefs names files := by
    simp [assembleParts]
  refine containsSub_jsJoin_of_mem "\n" _ hmem (infix_split "\n\n" _ _ ?_)
  simp only [String.data_append, ← List.append_assoc]
  congr 1

/-- C5 counterexample: assembling with the duplicated scraped filenames
`["a.py", "a.py", "b.js"]` produces a payload whose filenames section lists
`a.py, a.py, b.js` — the duplicates are kept, and the section claimed by the
specification (`a.py, b.js` right after the header) does not occur. -/
theorem assembler_filenames_counterexample :
    containsSub (assemblePayload "x" ⟨true, true, true, true, "", []⟩ ["a.py", "a.py", "b.js"] [])
        "Detected Claude Files (names only):\na.py, a.py, b.js" = true ∧
    containsSub (assemblePayload "x" ⟨true, true, true, true, "", []⟩ ["a.py", "a.py", "b.js"] [])
        "Detected Claude Files (names only):\na.py, b.js" = false := by
  decide

/-- C5 amended: `assemblePayload` performs no deduplication; whenever
`scrapedFilenames` is non-empty the payload lists the filenames verbatim, in
order and with duplicates kept, joined by `", "` under the section header
(deduplication happens upstream, in the content script's scrape `Set`, not in
the assembler). -/
theorem assembler_filenames_verbatim (raw : String) (prefs : Prefs) (names : List String)
    (files : List EmbeddedFile) (h : names ≠ []) :
    containsSub (assemblePayload raw prefs names files)
      ("Detected Claude Files (names only):\n" ++ jsJoin ", " names) = true := by
  have hlen : 0 < names.length := List.length_pos.mpr h
  have hmem : ("\n\nDetected Claude Files (names only):\n" ++ jsJoin ", " names)
      ∈ assembleParts raw prefs names files := by
    simp [assembleParts, hlen]
  refine containsSub_jsJoin_of_mem "\n" _ hmem (infix_split "\n\n" _ _ ?_)
  simp only [String.data_append, ← List.append_assoc]
  congr 1

/-- C5 amended witness: the verbatim listing at the duplicated concrete
input. -/
theorem assembler_filenames_verbatim_witness :
    containsSub
      (assemblePayload "x" ⟨true, true, true, true, "", []⟩ ["a.py", "a.py", "b.js"] [])
      ("Detected Claude Files (names only):\n" ++ jsJoin ", " ["a.py", "a.py", "b.js"]) = true :=
  assembler_filenames_verbatim "x" ⟨true, true, true, true, "", []⟩ ["a.py", "a.py", "b.js"] []
    (by decide)

/-- C6: the `truncated` flag computed in `popup.js` is true iff the file's
line count exceeds 50, and for such a file the payload parts for it are
exactly the header, the fence, the first 50 lines, a marker stating the total
line count, and the closing fence; the first 50 lines followed by the marker
occur contiguously in the assembled payload. -/
theorem embeddedFile_truncation (name ext content raw : String) (prefs : Prefs)
    (names : List String) (files : List EmbeddedFile)
    (hmem : mkEmbeddedFile name ext content ∈ files) :
    ((mkEmbeddedFile name ext content).truncated = true ↔ 50 < (jsSplitNl content).length) ∧
    (50 < (jsSplitNl content).length →
      embeddedFileParts (mkEmbeddedFile name ext content) =
        ["\n=== FILE: " ++ name, "```" ++ ext,
         jsJoin "\n" ((jsSplitNl content).take 50),
         "\n... [TRUNCATED - " ++ toString (jsSplitNl content).length ++ " total lines]",
         "```"] ∧
      containsSub (assemblePayload raw prefs names files)
        (jsJoin "\n" ((jsSplitNl content).take 50) ++ "\n"
          ++ ("\n... [TRUNCATED - " ++ toString (jsSplitNl content).length ++ " total lines]"))
        = true) := by
  constructor
  · simp [mkEmbeddedFile]
  · intro h50
    have hparts : embeddedFileParts (mkEmbeddedFile name ext content) =
        ["\n=== FILE: " ++ name, "```" ++ ext]
        ++ [jsJoin "\n" ((jsSplitNl content).take 50),
            "\n... [TRUNCATED - " ++ toString (jsSplitNl content).length ++ " total lines]"]
        ++ ["```"] := by
      simp [embeddedFileParts, mkEmbeddedFile, h50]
    refine ⟨by simpa using hparts, ?_⟩
    have hrun : [jsJoin "\n" ((jsSplitNl content).take 50),
        "\n... [TRUNCATED - " ++ toString (jsSplitNl content).length ++ " total lines]"]
        <:+: assembleParts raw prefs names files := by
      have h1 : [jsJoin "\n" ((jsSplitNl content).take 50),
          "\n... [TRUNCATED - " ++ toString (jsSplitNl content).length ++ " total lines]"]
          <:+: embeddedFileParts (mkEmbeddedFile name ext content) := by
        rw [hparts]
        exact List.infix_append _ _ _
      have h2 : embeddedFileParts (mkEmbeddedFile name ext content)
          <:+: (files.map embeddedFileParts).flatten :=
        List.infix_of_mem_flatten (List.mem_map_of_mem _ hmem)
      have hfl : 0 < files.length := List.length_pos.mpr (by rintro rfl; simp at hmem)
      have h3 : (files.map embeddedFileParts).flatten <:+: assembleParts raw prefs names files := by
        show (files.map embeddedFileParts).flatten <:+: _ ++ _
        refine List.IsSuffix.isInfix ?_
        simp only [assembleParts, if_pos hfl]
        exact (List.suffix_cons _ _).trans (List.suffix_append _ _)
      exact (h1.trans h2).trans h3
    have := infix_run_jsJoin "\n" _ _ (by simp) hrun
    exact (containsSub_iff _ _).mpr this

/-- A 75-line file used to witness the truncation behaviour. -/
def content75 : String :=
  jsJoin "\n" (List.replicate 75 "line")

/-- C6 witness: the 75-line file is flagged truncated and its payload section
is the first 50 lines plus a marker stating "75" as the total. -/
theorem embeddedFile_truncation_witness :
    (jsSplitNl content75).length = 75 ∧
    (((mkEmbeddedFile "notes.txt" "txt" content75).truncated = true
        ↔ 50 < (jsSplitNl content75).length) ∧
      (50 < (jsSplitNl content75).length →
        embeddedFileParts (mkEmbeddedFile "notes.txt" "txt" content75) =
          ["\n=== FILE: " ++ "notes.txt", "```" ++ "txt",
           jsJoin "\n" ((jsSplitNl content75).take 50),
           "\n... [TRUNCATED - " ++ toString (jsSplitNl content75).length ++ " total lines]",
           "```"] ∧
        containsSub
          (assemblePayload "fix" ⟨true, true, true, true, "", []⟩ []
            [mkEmbeddedFile "notes.txt" "txt" content75])
          (jsJoin "\n" ((jsSplitNl content75).take 50) ++ "\n"
            ++ ("\n... [TRUNCATED - " ++ toString (jsSplitNl content75).length
                ++ " total lines]"))
          = true)) :=
  ⟨by decide,
   embeddedFile_truncation "notes.txt" "txt" content75 "fix" ⟨true, true, true, true, "", []⟩ []
     [mkEmbeddedFile "notes.txt" "txt" content75] (by simp)⟩

/-! ### Claim theorems: provider dispatcher and orchestrator -/

/-- C1 counterexample: the classification table is not uniform across
providers.  An OpenAI 403 response is not classified `InvalidCredential` (only
401 is); an Ollama 429 response is not classified `RateLimited` — both fall
through to the generic error branch. -/
theorem dispatch_classification_counterexample :
    (generateWithProvider ⟨"openai", none, some "sk-test", none⟩
        (.response ⟨403, "", "", none⟩)).result
      = .err ⟨.UnknownError, "OpenAI error: 403"⟩ ∧
    ErrorKind.UnknownError ≠ ErrorKind.InvalidCredential ∧
    (generateWithProvider ⟨"ollama", none, none, none⟩
        (.response ⟨429, "", "", none⟩)).result
      = .err ⟨.UnknownError, "Ollama error: 429"⟩ ∧
    ErrorKind.UnknownError ≠ ErrorKind.RateLimited := by
  decide

/-- C1 amended: the per-provider classification the code implements.  Gemini
maps 400 to `BadRequest`, 401/403 to `InvalidCredential`, 429 to `RateLimited`
and every 5xx to `ProviderUnavailable`; OpenAI maps only 401 to
`InvalidCredential`, 429 to `RateLimited` and 402 to `QuotaExceeded`, with
403 and 5xx falling to the generic branch; Ollama maps only 404 to
`ModelNotFound`, with 429 falling to the generic branch; a network-level fetch
failure yields `NetworkError` for every provider.  In particular an HTTP 429
yields `RateLimited` for Gemini and OpenAI. -/
theorem dispatch_classification (status : Nat) (bodyMsg gkey okey : String)
    (hg : gkey ≠ "") (ho : okey ≠ "") :
    (status = 400 →
      (generateWithProvider ⟨"gemini", some gkey, none, none⟩
          (.response ⟨status, bodyMsg, "", none⟩)).result
        = .err ⟨.BadRequest, "Invalid request. Check your prompt."⟩) ∧
    (status = 401 ∨ status = 403 →
      (generateWithProvider ⟨"gemini", some gkey, none, none⟩
          (.response ⟨status, bodyMsg, "", none⟩)).result
        = .err ⟨.InvalidCredential, "Invalid Gemini API key"⟩) ∧
    (status = 429 →
      (generateWithProvider ⟨"gemini", some gkey, none, none⟩
          (.response ⟨status, bodyMsg, "", none⟩)).result
        = .err ⟨.RateLimited, "Rate limit: 15 req/min for free tier. Wait and retry."⟩) ∧
    (500 ≤ status →
      (generateWithProvider ⟨"gemini", some gkey, none, none⟩
          (.response ⟨status, bodyMsg, "", none⟩)).result
        = .err ⟨.ProviderUnavailable, "Gemini API is temporarily unavailable"⟩) ∧
    (status = 401 →
      (generateWithProvider ⟨"openai", none, some okey, none⟩
          (.response ⟨status, bodyMsg, "", none⟩)).result
        = .err ⟨.InvalidCredential, "Invalid OpenAI API key"⟩) ∧
    (status = 429 →
      (generateWithProvider ⟨"openai", none, some okey, none⟩
          (.response ⟨status, bodyMsg, "", none⟩)).result
        = .err ⟨.RateLimited, "OpenAI rate limit exceeded"⟩) ∧
    (status = 402 →
      (generateWithProvider ⟨"openai", none, some okey, none⟩
          (.response ⟨status, bodyMsg, "", none⟩)).result
        = .err ⟨.QuotaExceeded, "OpenAI quota exceeded - add billing"⟩) ∧
    (500 ≤ status →
      (generateWithProvider ⟨"openai", none, some okey, none⟩
          (.response ⟨status, bodyMsg, "", none⟩)).result
        = .err (⟨.UnknownError,
            if bodyMsg = "" then "OpenAI error: " ++ toString status else bodyMsg⟩)) ∧
    (status = 404 →
      (generateWithProvider ⟨"ollama", none, none, none⟩
          (.response ⟨status, bodyMsg, "", none⟩)).result
        = .err ⟨.ModelNotFound, "Model \x22llama3.2\x22 not found. Run: ollama pull llama3.2"⟩) ∧
    (status = 429 →
      (generateWithProvider ⟨"ollama", none, none, none⟩
          (.response ⟨status, bodyMsg, "", none⟩)).result
        = .err ⟨.UnknownError, "Ollama error: 429"⟩) ∧
    (generateWithProvider ⟨"gemini", some gkey, none, none⟩ .failure).result
      = .err ⟨.NetworkError, "Failed to fetch"⟩ ∧
    (generateWithProvider ⟨"openai", none, some okey, none⟩ .failure).result
      = .err ⟨.NetworkError, "Failed to fetch"⟩ ∧
    (generateWithProvider ⟨"ollama", none, none, none⟩ .failure).result
      = .err ⟨.NetworkError,
          "Cannot connect to Ollama. Make sure it is running on http://localhost:11434"⟩ := by
  have hgb : falsy (some gkey) = false := by simp [falsy, hg]
  have hob : falsy (some okey) = false := by simp [falsy, ho]
  refine ⟨?_, ?_, ?_, ?_, ?_, ?_, ?_, ?_, ?_, ?_, ?_, ?_, ?_⟩
  · rintro rfl
    simp [generateWithProvider, generateWithGemini, hgb, responseOk, handleGeminiError]
  · rintro (rfl | rfl) <;>
      simp [generateWithProvider, generateWithGemini, hgb, responseOk, handleGeminiError]
  · rintro rfl
    simp [generateWithProvider, generateWithGemini, hgb, responseOk, handleGeminiError]
  · intro h5
    have h1 : responseOk status = false := by simp [responseOk]; omega
    have h2 : status ≠ 400 := by omega
    have h3 : ¬(status = 401 ∨ status = 403) := by omega
    have h4 : status ≠ 429 := by omega
    simp [generateWithProvider, generateWithGemini, hgb, h1, handleGeminiError, h2, h3, h4, h5]
  · rintro rfl
    simp [generateWithProvider, generateWithOpenAI, hob, responseOk, openaiError]
  · rintro rfl
    simp [generateWithProvider, generateWithOpenAI, hob, responseOk, openaiError]
  · rintro rfl
    simp [generateWithProvider, generateWithOpenAI, hob, responseOk, openaiError]
  · intro h5
    have h1 : responseOk status = false := by simp [responseOk]; omega
    have h2 : status ≠ 401 := by omega
    have h3 : status ≠ 429 := by omega
    have h4 : status ≠ 402 := by omega
    by_cases hb : bodyMsg = "" <;>
      simp [generateWithProvider, generateWithOpenAI, hob, h1, openaiError, h2, h3, h4, hb]
  · rintro rfl
    simp [generateWithProvider, generateWithOllama, responseOk]
  · rintro rfl
    simp [generateWithProvider, generateWithOllama, responseOk]
    decide
  · simp [generateWithProvider, generateWithGemini, hgb]
  · simp [generateWithProvider, generateWithOpenAI, hob]
  · simp [generateWithProvider, generateWithOllama, resolveOllamaBase, falsy]

/-- C1 amended witness: the table applied at status 429 with both keys
present. -/
theorem dispatch_classification_witness :
    ((429 : Nat) = 400 →
      (generateWithProvider ⟨"gemini", some "gk", none, none⟩
          (.response ⟨429, "", "", none⟩)).result
        = .err ⟨.BadRequest, "Invalid request. Check your prompt."⟩) ∧
    ((429 : Nat) = 401 ∨ (429 : Nat) = 403 →
      (generateWithProvider ⟨"gemini", some "gk", none, none⟩
          (.response ⟨429, "", "", none⟩)).result
        = .err ⟨.InvalidCredential, "Invalid Gemini API key"⟩) ∧
    ((429 : Nat) = 429 →
      (generateWithProvider ⟨"gemini", some "gk", none, none⟩
          (.response ⟨429, "", "", none⟩)).result
        = .err ⟨.RateLimited, "Rate limit: 15 req/min for free tier. Wait and retry."⟩) ∧
    (500 ≤ (429 : Nat) →
      (generateWithProvider ⟨"gemini", some "gk", none, none⟩
          (.response ⟨429, "", "", none⟩)).result
        = .err ⟨.ProviderUnavailable, "Gemini API is temporarily unavailable"⟩) ∧
    ((429 : Nat) = 401 →
      (generateWithProvider ⟨"openai", none, some "ok", none⟩
          (.response ⟨429, "", "", none⟩)).result
        = .err ⟨.InvalidCredential, "Invalid OpenAI API key"⟩) ∧
    ((429 : Nat) = 429 →
      (generateWithProvider ⟨"openai", none, some "ok", none⟩
          (.response ⟨429, "", "", none⟩)).result
        = .err ⟨.RateLimited, "OpenAI rate limit exceeded"⟩) ∧
    ((429 : Nat) = 402 →
      (generateWithProvider ⟨"openai", none, some "ok", none⟩
          (.response ⟨429, "", "", none⟩)).result
        = .err ⟨.QuotaExceeded, "OpenAI quota exceeded - add billing"⟩) ∧
    (500 ≤ (429 : Nat) →
      (generateWithProvider ⟨"openai", none, some "ok", none⟩
          (.response ⟨429, "", "", none⟩)).result
        = .err (⟨.UnknownError,
            if ("" : String) = "" then "OpenAI error: " ++ toString (429 : Nat) else ""⟩)) ∧
    ((429 : Nat) = 404 →
      (generateWithProvider ⟨"ollama", none, none, none⟩
          (.response ⟨429, "", "", none⟩)).result
        = .err ⟨.ModelNotFound, "Model \x22llama3.2\x22 not found. Run: ollama pull llama3.2"⟩) ∧
    ((429 : Nat) = 429 →
      (generateWithProvider ⟨"ollama", none, none, none⟩
          (.response ⟨429, "", "", none⟩)).result
        = .err ⟨.UnknownError, "Ollama error: 429"⟩) ∧
    (generateWithProvider ⟨"gemini", some "gk", none, none⟩ .failure).result
      = .err ⟨.NetworkError, "Failed to fetch"⟩ ∧
    (generateWithProvider ⟨"openai", none, some "ok", none⟩ .failure).result
      = .err ⟨.NetworkError, "Failed to fetch"⟩ ∧
    (generateWithProvider ⟨"ollama", none, none, none⟩ .failure).result
      = .err ⟨.NetworkError,
          "Cannot connect to Ollama. Make sure it is running on http://localhost:11434"⟩ :=
  dispatch_classification 429 "" "gk" "ok" (by decide) (by decide)

/-- C2: with a falsy (absent or empty) key, the Gemini and OpenAI paths fail
with `MissingCredential` without reaching the network; the Ollama path never
produces a `MissingCredential` failure and, given no base URL, requests the
fixed local default. -/
theorem dispatch_missing_credential (net : FetchOutcome) (k b : Option String)
    (hk : falsy k = true) :
    generateWithProvider ⟨"gemini", k, none, none⟩ net
      = ⟨false, none, .err ⟨.MissingCredential, "Gemini API key is required"⟩⟩ ∧
    generateWithProvider ⟨"openai", none, k, none⟩ net
      = ⟨false, none, .err ⟨.MissingCredential, "OpenAI API key is required"⟩⟩ ∧
    (∀ e : ProviderError,
      (generateWithProvider ⟨"ollama", none, none, b⟩ net).result = .err e →
        e.kind ≠ .MissingCredential) ∧
    (falsy b = true →
      (generateWithProvider ⟨"ollama", none, none, b⟩ net).requestUrl
        = some "http://localhost:11434/api/generate") := by
  refine ⟨?_, ?_, ?_, ?_⟩
  · simp [generateWithProvider, generateWithGemini, hk]
  · simp [generateWithProvider, generateWithOpenAI, hk]
  · intro e he
    cases net with
    | failure =>
      simp [generateWithProvider, generateWithOllama] at he
      simp [← he]
    | response r =>
      by_cases h1 : responseOk r.status
      · simp [generateWithProvider, generateWithOllama, h1] at he
      · have h1' : r.status < 200 ∨ 300 ≤ r.status := by
          simp [responseOk] at h1
          omega
        by_cases h2 : r.status = 404 <;>
          · simp [generateWithProvider, generateWithOllama, h1', h2, responseOk] at he
            simp [← he]
  · intro hb
    cases net <;> simp [generateWithProvider, generateWithOllama, resolveOllamaBase, hb]

/-- C2 witness: the precondition failure at the concrete config
`{provider, apiKey: ''}` with a network oracle that would have failed. -/
theorem dispatch_missing_credential_witness :
    generateWithProvider ⟨"gemini", some "", none, none⟩ .failure
      = ⟨false, none, .err ⟨.MissingCredential, "Gemini API key is required"⟩⟩ ∧
    generateWithProvider ⟨"openai", none, some "", none⟩ .failure
      = ⟨false, none, .err ⟨.MissingCredential, "OpenAI API key is required"⟩⟩ ∧
    (∀ e : ProviderError,
      (generateWithProvider ⟨"ollama", none, none, none⟩ .failure).result = .err e →
        e.kind ≠ .MissingCredential) ∧
    (falsy none = true →
      (generateWithProvider ⟨"ollama", none, none, none⟩ .failure).requestUrl
        = some "http://localhost:11434/api/generate") :=
  dispatch_missing_credential .failure (some "") none (by decide)

/-- C3 counterexample: the orchestrator does not pass the dispatcher's error
through unchanged — the OpenAI quota message (it contains `quota`) is replaced
by a canned Google AI Studio message. -/
theorem orchestrator_rewrites_counterexample :
    handleOptimize (some "gk") "openai"
        (.err ⟨.QuotaExceeded, "OpenAI quota exceeded - add billing"⟩)
      = ⟨false, none, some "API quota exceeded. Check your Google AI Studio dashboard."⟩ ∧
    ("API quota exceeded. Check your Google AI Studio dashboard." : String)
      ≠ "OpenAI quota exceeded - add billing" := by
  decide

/-- C3 amended: past the missing-key precheck, the orchestrator returns
`{ok: true, prompt}` on dispatcher success and `{ok: false, error}` on
dispatcher failure, where the error message is the dispatcher's message passed
through `rewriteErrorMessage`: unchanged unless it contains `403`, `429` or
`quota` (tested in that order), in which case a canned message replaces it. -/
theorem orchestrator_propagation (k : Option String) (prov : String) (t : String)
    (e : ProviderError) (h : (falsy k && (prov == "gemini")) = false) :
    handleOptimize k prov (.ok t) = ⟨true, some t, none⟩ ∧
    handleOptimize k prov (.err e) = ⟨false, none, some (rewriteErrorMessage e.message)⟩ ∧
    (containsSub e.message "403" = false → containsSub e.message "429" = false →
      containsSub e.message "quota" = false →
      handleOptimize k prov (.err e) = ⟨false, none, some e.message⟩) := by
  refine ⟨?_, ?_, ?_⟩
  · simp [handleOptimize, h]
  · simp [handleOptimize, h]
  · intro h1 h2 h3
    simp [handleOptimize, h, rewriteErrorMessage, h1, h2, h3]

/-- C3 amended witness: propagation at a concrete non-gemini-precheck config
and an error message free of the rewritten substrings. -/
theorem orchestrator_propagation_witness :
    handleOptimize (some "gk") "gemini" (.ok "out") = ⟨true, some "out", none⟩ ∧
    handleOptimize (some "gk") "gemini" (.err ⟨.UnknownError, "boom"⟩)
      = ⟨false, none, some (rewriteErrorMessage "boom")⟩ ∧
    (containsSub "boom" "403" = false → containsSub "boom" "429" = false →
      containsSub "boom" "quota" = false →
      handleOptimize (some "gk") "gemini" (.err ⟨.UnknownError, "boom"⟩)
        = ⟨false, none, some "boom"⟩) :=
  orchestrator_propagation (some "gk") "gemini" "out" ⟨.UnknownError, "boom"⟩ (by decide)

/-! ### Claim theorems: response normalization -/

theorem trimChars_eq_rdrop (l : List Char) :
    trimChars l = (l.dropWhile jsIsWs).rdropWhile jsIsWs :=
  rfl

theorem dropWhile_rdropWhile_dropWhile (p : Char → Bool) (l : List Char) :
    ((l.dropWhile p).rdropWhile p).dropWhile p = (l.dropWhile p).rdropWhile p := by
  cases hB : (l.dropWhile p).rdropWhile p with
  | nil => simp
  | cons b B' =>
    have hhead : (l.dropWhile p).head? = some b := by
      have hpre : b :: B' <+: l.dropWhile p := hB ▸ List.rdropWhile_prefix _ _
      obtain ⟨t, ht⟩ := hpre
      rw [← ht]
      simp
    have hpb : p b = false := by
      have hm := List.head?_dropWhile_not p l
      simpa [hhead] using hm
    simp [List.dropWhile_cons, hpb]

/-- `text.trim()` is idempotent. -/
theorem trimChars_idem (l : List Char) : trimChars (trimChars l) = trimChars l := by
  rw [trimChars_eq_rdrop, trimChars_eq_rdrop, dropWhile_rdropWhile_dropWhile,
    List.rdropWhile_idempotent]

theorem stripPattern_no_match {pat : List (List Char)} {t : List Char}
    (h : matchLiteral pat t = none) : stripPattern pat t = t := by
  simp [stripPattern, h]

/-- C4 counterexample: on a response that begins with two of the boilerplate
prefixes in a row, `cleanResponse` removes both, while the specified
first-match-wins-once policy (`cleanResponseSpecFirstMatch`) removes only the
first: the two functions differ. -/
theorem cleanResponse_counterexample :
    cleanResponse "Here\x27s the optimized prompt: Optimized prompt: hello" = "hello" ∧
    cleanResponseSpecFirstMatch "Here\x27s the optimized prompt: Optimized prompt: hello"
      = "Optimized prompt: hello" ∧
    ("hello" : String) ≠ "Optimized prompt: hello" := by
  decide

/-- C4 amended: `cleanResponse` trims, then applies the five prefix patterns
sequentially in their fixed order — each pattern strips at most once, but a
later pattern acts on the output of the earlier ones, so more than one
pattern's prefix can be removed in a single normalization; when no pattern
matches the trimmed text, the trimmed text is returned unchanged. -/
theorem cleanResponse_sequential (s : String) :
    cleanResponse s =
      String.mk (trimChars
        (stripPattern pat5 (stripPattern pat4 (stripPattern pat3
          (stripPattern pat2 (stripPattern pat1 (trimChars s.data))))))) ∧
    ((∀ pat ∈ responsePrefixPatterns, matchLiteral pat (trimChars s.data) = none) →
      cleanResponse s = jsTrim s) := by
  constructor
  · rfl
  · intro h
    have h1 := h pat1 (by simp [responsePrefixPatterns])
    have h2 := h pat2 (by simp [responsePrefixPatterns])
    have h3 := h pat3 (by simp [responsePrefixPatterns])
    have h4 := h pat4 (by simp [responsePrefixPatterns])
    have h5 := h pat5 (by simp [responsePrefixPatterns])
    show String.mk (trimChars
        (responsePrefixPatterns.foldl (fun r p => stripPattern p r) (trimChars s.data))) = _
    simp only [responsePrefixPatterns, List.foldl_cons, List.foldl_nil,
      stripPattern_no_match h1, stripPattern_no_match h2, stripPattern_no_match h3,
      stripPattern_no_match h4, stripPattern_no_match h5]
    rw [trimChars_idem]
    rfl

/-- C4 amended witness: a response that matches none of the boilerplate
patterns is returned trimmed and otherwise unchanged. -/
theorem cleanResponse_sequential_witness :
    cleanResponse "  just some answer  " = jsTrim "  just some answer  " :=
  (cleanResponse_sequential "  just some answer  ").2 (by decide)

end ClaudeExt
